import Mathlib

-- Verification of the Revrag Voice AI agent (src/src/revrag_voice_ai/agent.py)
-- against its natural-language specification.
--
-- The embedding below models the two pieces of original logic in the source:
-- the echo response generator EchoAgent.llm_node and the idle-reminder event
-- handler registered in entrypoint, together with the configuration constants
-- passed to the AgentSession constructor.  Times are rationals, Python strings
-- are Lean strings, and Python None is modelled with Option.

-- ---------------------------------------------------------------------------
-- Configuration constants (agent.py lines 50-54)
-- ---------------------------------------------------------------------------

/-- Seconds of user silence before the idle reminder is played
(agent.py line 51: SILENCE_TIMEOUT_SECS = 20.0). -/
def SILENCE_TIMEOUT_SECS : ℚ := 20

/-- Text spoken to the user after an idle period
(agent.py line 54: SILENCE_REMINDER_TEXT). -/
def SILENCE_REMINDER_TEXT : String := "I\x27m here when you\x27re ready."

-- ---------------------------------------------------------------------------
-- Chat data model and the echo generator (agent.py lines 80-100)
-- ---------------------------------------------------------------------------

/-- One chat message as seen by llm_node: a role string (the code compares it
with the literal "user") and an optional text content (Python text_content can
be None). -/
structure ChatMessage where
  role : String
  text_content : Option String
deriving DecidableEq

/-- The chat context handed to llm_node; the code iterates over
chat_ctx.messages(). -/
structure ChatContext where
  messages : List ChatMessage
deriving DecidableEq

/-- The loop body of llm_node: walk the (already reversed) message list and
return the first user message text, substituting the empty string when the
message carries no text (Python: msg.text_content or "").  The initial value
of last_user_text in the code is the empty string, returned when no user
message is found. -/
def last_user_text : List ChatMessage → String
  | [] => ""
  | msg :: rest =>
      if msg.role = "user" then msg.text_content.getD "" else last_user_text rest

/-- EchoAgent.llm_node (agent.py lines 80-100): scan the chat context from the
most recent message backwards for the last user message and return the string
composed of the fixed echo marker followed by that text.  The tools and
model_settings parameters are accepted, as in the source signature, and not
read. -/
def llm_node {Tool ModelSettings : Type}
    (chat_ctx : ChatContext) (tools : List Tool) (model_settings : ModelSettings) :
    String :=
  "You said: " ++ last_user_text chat_ctx.messages.reverse

-- ---------------------------------------------------------------------------
-- Speech commands and the idle-reminder handler (agent.py lines 152-172)
-- ---------------------------------------------------------------------------

/-- A command issued to the synthesis collaborator: session.say(text,
allow_interruptions) becomes speak text interruptible, and an interruption
becomes cancelSpeech. -/
inductive Command where
  | speak (text : String) (interruptible : Bool)
  | cancelSpeech
deriving DecidableEq

/-- The user_state_changed handler (agent.py lines 155-172) as a pure step:
given the current value of the guard flag and the new user state string, it
returns the updated flag and the commands issued.  The code: on "away" with
the flag clear, set the flag and say the reminder with allow_interruptions
True; on "speaking", clear the flag; otherwise do nothing. -/
def on_user_state_changed (reminder_sent : Bool) (new_state : String) :
    Bool × List Command :=
  if new_state = "away" ∧ reminder_sent = false then
    (true, [Command.speak SILENCE_REMINDER_TEXT true])
  else if new_state = "speaking" then
    (false, [])
  else
    (reminder_sent, [])

/-- Run the handler over a sequence of user-state-changed events, collecting
every command issued. -/
def run_trace (reminder_sent : Bool) : List String → List Command
  | [] => []
  | s :: rest =>
      let r := on_user_state_changed reminder_sent s
      r.2 ++ run_trace r.1 rest

-- ---------------------------------------------------------------------------
-- AgentSession constructor arguments (agent.py lines 137-150)
-- ---------------------------------------------------------------------------

/-- The tunable keyword arguments entrypoint passes to the AgentSession
constructor. -/
structure AgentSessionArgs where
  allow_interruptions : Bool
  min_interruption_duration : ℚ
  user_away_timeout : ℚ
deriving DecidableEq

/-- The argument values set in entrypoint (agent.py lines 144-149):
allow_interruptions True, min_interruption_duration 0.3, user_away_timeout
SILENCE_TIMEOUT_SECS. -/
def entrypoint_session_args : AgentSessionArgs :=
  { allow_interruptions := true
    min_interruption_duration := 3 / 10
    user_away_timeout := SILENCE_TIMEOUT_SECS }

/-- Modelled from the spec: the trim operation of section 4.53 (the source
never trims; Python str.strip of leading and trailing whitespace would be its
realization).  Defined over the character list so that it evaluates by
kernel reduction. -/
def trim (s : String) : String :=
  ⟨((s.data.dropWhile Char.isWhitespace).reverse.dropWhile
      Char.isWhitespace).reverse⟩

-- ---------------------------------------------------------------------------
-- Turn-Taking and Idle-Notification Controller (spec section 4)
-- ---------------------------------------------------------------------------

/-- Modelled from the spec: configuration of the Turn-Taking and
Idle-Notification Controller of section 4.  The interruption debounce and the
silence timer are implemented inside the external AgentSession runtime (the
source only passes allow_interruptions, min_interruption_duration and
user_away_timeout to its constructor, agent.py lines 137-150), so the
controller is modelled here from the spec and instantiated with the values the
source configures.  Time is measured in integer deciseconds, tenths of a
second, so that the model evaluates by kernel reduction: 20.0 seconds is 200
and 0.3 seconds is 3. -/
structure CtrlConfig where
  silenceThreshold : ℤ
  interruptionMinDuration : ℤ
  reminderText : String
deriving DecidableEq

/-- Agent speech state of the controller (spec section 3). -/
inductive AgState where
  | idle
  | speaking
deriving DecidableEq

/-- Idle-reminder machine state (spec section 4.5); the transient
AWAY_PENDING_REMINDER state is collapsed into the step that fires the
reminder. -/
inductive IdleSt where
  | engaged
  | awayReminded
deriving DecidableEq

/-- Modelled from the spec: controller state.  lastSpeechAt is the time of the
last SpeechStarted or AgentSpeechStarted event; userSpeechStart records when
continuous user speech began while the agent was speaking (the interruption
candidate). -/
structure CtrlState where
  agentState : AgState
  idleState : IdleSt
  lastSpeechAt : ℤ
  userSpeechStart : Option ℤ

/-- Timestamped events the controller consumes (spec section 4 inputs); tick
is the continuously advancing clock. -/
inductive CtrlEvent where
  | speechStarted (t : ℤ)
  | speechEnded (t : ℤ)
  | utteranceFinalized (t : ℤ) (text : String)
  | agentSpeechStarted (t : ℤ)
  | agentSpeechEnded (t : ℤ)
  | tick (t : ℤ)

/-- The string llm_node returns when the last user message carries text; used
by the controller model for the UtteranceFinalized response (the source echo
has no trim and no fallback, see llm_node). -/
def echoResponse (text : String) : String := "You said: " ++ text

/-- Modelled from the spec: one controller step, (state, event) to (new state,
commands).  User speech starting re-engages the idle machine and, while the
agent is speaking, arms the interruption candidate; a finalized utterance is
answered with the echo response; a clock tick first applies the interruption
policy (continuous user speech of at least interruptionMinDuration while the
agent speaks issues CancelSpeech and moves the agent to idle) and then the
silence policy (no speech for silenceThreshold from the engaged state issues
the reminder exactly once). -/
def ctrl_step (cfg : CtrlConfig) (st : CtrlState) : CtrlEvent → CtrlState × List Command
  | CtrlEvent.speechStarted t =>
      ({ st with lastSpeechAt := t, idleState := IdleSt.engaged,
                 userSpeechStart :=
                   if st.agentState = AgState.speaking then some t else none }, [])
  | CtrlEvent.speechEnded _ =>
      ({ st with userSpeechStart := none }, [])
  | CtrlEvent.utteranceFinalized _ text =>
      (st, [Command.speak (echoResponse text) true])
  | CtrlEvent.agentSpeechStarted t =>
      ({ st with agentState := AgState.speaking, lastSpeechAt := t }, [])
  | CtrlEvent.agentSpeechEnded _ =>
      ({ st with agentState := AgState.idle, userSpeechStart := none }, [])
  | CtrlEvent.tick t =>
      let r :=
        match st.userSpeechStart with
        | some t0 =>
            if st.agentState = AgState.speaking ∧
                cfg.interruptionMinDuration ≤ t - t0 then
              ({ st with agentState := AgState.idle, userSpeechStart := none },
               [Command.cancelSpeech])
            else (st, ([] : List Command))
        | none => (st, ([] : List Command))
      if r.1.idleState = IdleSt.engaged ∧
          cfg.silenceThreshold ≤ t - r.1.lastSpeechAt then
        ({ r.1 with idleState := IdleSt.awayReminded },
         r.2 ++ [Command.speak cfg.reminderText true])
      else r

/-- Run the controller over an event list, collecting every command issued. -/
def ctrl_run (cfg : CtrlConfig) (st : CtrlState) : List CtrlEvent → List Command
  | [] => []
  | e :: rest =>
      let r := ctrl_step cfg st e
      r.2 ++ ctrl_run cfg r.1 rest

/-- The controller configuration the source establishes, in deciseconds:
silence threshold 200 (SILENCE_TIMEOUT_SECS, 20.0 seconds), interruption
duration 3 (0.3 seconds), reminder SILENCE_REMINDER_TEXT. -/
def sourceConfig : CtrlConfig :=
  { silenceThreshold := 200
    interruptionMinDuration := 3
    reminderText := SILENCE_REMINDER_TEXT }

/-- Controller state at connection time: agent idle, idle machine engaged,
clock origin zero, no interruption candidate. -/
def initCtrlState : CtrlState :=
  { agentState := AgState.idle
    idleState := IdleSt.engaged
    lastSpeechAt := 0
    userSpeechStart := none }

/-- The event sequence of the end-to-end scenario (spec section 8.7), times
in deciseconds: connect at time 0; silence until the clock reaches 200 (20.0
seconds); the reminder plays from 200 to 220; the user says hello during 230
to 240, finalized at 250; the echo playback starts at 250; the user speaks
again from 260 and is still speaking 0.6 seconds later at the tick 266;
silence then lasts 20.0 seconds from the last speech start at 260, observed
at the tick 470. -/
def scenarioEvents : List CtrlEvent :=
  [CtrlEvent.tick 200,
   CtrlEvent.agentSpeechStarted 200,
   CtrlEvent.agentSpeechEnded 220,
   CtrlEvent.speechStarted 230,
   CtrlEvent.speechEnded 240,
   CtrlEvent.utteranceFinalized 250 "hello",
   CtrlEvent.agentSpeechStarted 250,
   CtrlEvent.speechStarted 260,
   CtrlEvent.tick 266,
   CtrlEvent.speechEnded 266,
   CtrlEvent.tick 470]

-- ---------------------------------------------------------------------------
-- Helper lemmas
-- ---------------------------------------------------------------------------

/-- Scanning a list that contains no user message skips it entirely. -/
lemma last_user_text_append (l r : List ChatMessage)
    (h : ∀ m ∈ l, m.role ≠ "user") :
    last_user_text (l ++ r) = last_user_text r := by
  induction l with
  | nil => rfl
  | cons m ms ih =>
      have hm : m.role ≠ "user" := h m (List.mem_cons_self m ms)
      simp only [List.cons_append, last_user_text, if_neg hm]
      exact ih fun x hx => h x (List.mem_cons_of_mem m hx)

/-- Scanning a list that contains no user message returns the empty string. -/
lemma last_user_text_of_no_user (l : List ChatMessage)
    (h : ∀ m ∈ l, m.role ≠ "user") :
    last_user_text l = "" := by
  have := last_user_text_append l [] h
  simpa using this

/-- The value llm_node computes when the chat context decomposes as earlier
messages, then a user message with content c, then messages none of which is
a user message: the echo marker followed by the content, with the empty
string substituted for a missing content. -/
lemma llm_node_eq {Tool ModelSettings : Type} (pre post : List ChatMessage)
    (c : Option String) (tools : List Tool) (ms : ModelSettings)
    (hpost : ∀ m ∈ post, m.role ≠ "user") :
    llm_node ⟨pre ++ ChatMessage.mk "user" c :: post⟩ tools ms =
      "You said: " ++ c.getD "" := by
  show "You said: " ++
      last_user_text (pre ++ ChatMessage.mk "user" c :: post).reverse = _
  rw [List.reverse_append, List.reverse_cons, List.append_assoc,
      last_user_text_append _ _ fun m hm => hpost m (List.mem_reverse.mp hm)]
  simp [last_user_text]

-- ---------------------------------------------------------------------------
-- Claims about the echo generator
-- ---------------------------------------------------------------------------

/-- C1 counterexample: the claim states that for a last user message with
non-empty trimmed text s the response is the echo marker followed by the
trimmed text; at the concrete input with text " hello" (one leading space),
whose trimmed form "hello" is non-empty, llm_node returns the untrimmed echo,
which differs from the claimed string. -/
theorem echo_trim_counterexample :
    trim " hello" ≠ "" ∧
    llm_node ⟨[ChatMessage.mk "user" (some " hello")]⟩ ([] : List Unit) () ≠
      "You said: " ++ trim " hello" := by
  constructor <;> decide

/-- C1 (amended): for every chat context whose last user message carries text
s with non-empty trimmed form, llm_node returns exactly the echo marker
followed by the raw text s, without trimming. -/
theorem echo_untrimmed {Tool ModelSettings : Type}
    (pre post : List ChatMessage) (s : String)
    (tools : List Tool) (ms : ModelSettings)
    (hpost : ∀ m ∈ post, m.role ≠ "user") (hs : trim s ≠ "") :
    llm_node ⟨pre ++ ChatMessage.mk "user" (some s) :: post⟩ tools ms =
      "You said: " ++ s :=
  llm_node_eq pre post (some s) tools ms hpost

/-- Witness for echo_untrimmed at a concrete chat context. -/
theorem echo_untrimmed_witness :
    (∀ m ∈ [ChatMessage.mk "assistant" (some "ok")], m.role ≠ "user") ∧
    trim " hi " ≠ "" ∧
    llm_node ⟨[] ++ ChatMessage.mk "user" (some " hi ") ::
        [ChatMessage.mk "assistant" (some "ok")]⟩ ([] : List Unit) () =
      "You said: " ++ " hi " :=
  ⟨by decide, by decide,
   echo_untrimmed [] [ChatMessage.mk "assistant" (some "ok")] " hi " _ _
     (by decide) (by decide)⟩

/-- C2 counterexample: the claim states that an utterance whose trimmed text
is empty yields the fallback prompt; at the concrete input with empty text,
llm_node returns the bare echo marker, not the fallback prompt. -/
theorem empty_fallback_counterexample :
    trim "" = "" ∧
    llm_node ⟨[ChatMessage.mk "user" (some "")]⟩ ([] : List Unit) () ≠
      "I didn\x27t catch that. Could you repeat yourself?" := by
  constructor <;> decide

/-- C2 (amended): for every chat context whose last user message carries text
s with empty trimmed form, llm_node still returns normally, producing the echo
of the raw text rather than a fallback prompt; in particular the empty input
is not surfaced as a failure. -/
theorem echo_empty_input {Tool ModelSettings : Type}
    (pre post : List ChatMessage) (s : String)
    (tools : List Tool) (ms : ModelSettings)
    (hpost : ∀ m ∈ post, m.role ≠ "user") (hs : trim s = "") :
    llm_node ⟨pre ++ ChatMessage.mk "user" (some s) :: post⟩ tools ms =
      "You said: " ++ s :=
  llm_node_eq pre post (some s) tools ms hpost

/-- Witness for echo_empty_input at a concrete chat context. -/
theorem echo_empty_input_witness :
    (∀ m ∈ ([] : List ChatMessage), m.role ≠ "user") ∧
    trim "   " = "" ∧
    llm_node ⟨[] ++ ChatMessage.mk "user" (some "   ") :: []⟩
        ([] : List Unit) () = "You said: " ++ "   " :=
  ⟨by decide, by decide,
   echo_empty_input [] [] "   " _ _ (by decide) (by decide)⟩

/-- C8: for every chat context and arguments, llm_node returns a string of the
form echo marker plus suffix; when the context holds no user message at all,
or the last user message has no text content, the suffix is the empty
string. -/
theorem llm_node_always_echo {Tool ModelSettings : Type}
    (ctx : ChatContext) (tools : List Tool) (ms : ModelSettings) :
    (∃ t, llm_node ctx tools ms = "You said: " ++ t) ∧
    ((∀ m ∈ ctx.messages, m.role ≠ "user") → llm_node ctx tools ms = "You said: ") ∧
    (∀ pre post, ctx.messages = pre ++ ChatMessage.mk "user" none :: post →
      (∀ m ∈ post, m.role ≠ "user") → llm_node ctx tools ms = "You said: ") := by
  refine ⟨⟨last_user_text ctx.messages.reverse, rfl⟩, ?_, ?_⟩
  · intro h
    show "You said: " ++ last_user_text ctx.messages.reverse = _
    rw [last_user_text_of_no_user _ fun m hm => h m (List.mem_reverse.mp hm)]
    decide
  · intro pre post hmsgs hpost
    obtain ⟨msgs⟩ := ctx
    simp only at hmsgs
    subst hmsgs
    exact llm_node_eq pre post none tools ms hpost

/-- Witness for llm_node_always_echo at a concrete chat context whose only
user message has no text content. -/
theorem llm_node_always_echo_witness :
    (∃ t, llm_node ⟨[ChatMessage.mk "user" none]⟩ ([] : List Unit) () =
        "You said: " ++ t) ∧
    llm_node ⟨[ChatMessage.mk "user" none]⟩ ([] : List Unit) () = "You said: " :=
  ⟨(llm_node_always_echo _ _ _).1,
   (llm_node_always_echo ⟨[ChatMessage.mk "user" none]⟩ ([] : List Unit) ()).2.2
     [] [] rfl (by decide)⟩

/-- C10: llm_node depends only on the text content of the last user message;
for any two chat contexts whose last user messages carry the same content,
and any tools lists and model settings, the responses coincide. -/
theorem llm_node_last_user_only {T1 M1 T2 M2 : Type}
    (pre1 post1 pre2 post2 : List ChatMessage) (c : Option String)
    (tools1 : List T1) (ms1 : M1) (tools2 : List T2) (ms2 : M2)
    (h1 : ∀ m ∈ post1, m.role ≠ "user") (h2 : ∀ m ∈ post2, m.role ≠ "user") :
    llm_node ⟨pre1 ++ ChatMessage.mk "user" c :: post1⟩ tools1 ms1 =
      llm_node ⟨pre2 ++ ChatMessage.mk "user" c :: post2⟩ tools2 ms2 := by
  rw [llm_node_eq pre1 post1 c tools1 ms1 h1,
      llm_node_eq pre2 post2 c tools2 ms2 h2]

/-- Witness for llm_node_last_user_only: two contexts sharing only the last
user text, with different histories, tools and settings, get the same
response. -/
theorem llm_node_last_user_only_witness :
    (∀ m ∈ [ChatMessage.mk "assistant" (some "b")], m.role ≠ "user") ∧
    llm_node ⟨[ChatMessage.mk "system" (some "a")] ++
        ChatMessage.mk "user" (some "hi") ::
        [ChatMessage.mk "assistant" (some "b")]⟩ ([] : List Unit) () =
      llm_node ⟨[] ++ ChatMessage.mk "user" (some "hi") :: []⟩
        [true] (0 : Nat) :=
  ⟨by decide,
   llm_node_last_user_only [ChatMessage.mk "system" (some "a")]
     [ChatMessage.mk "assistant" (some "b")] [] [] (some "hi")
     ([] : List Unit) () [true] (0 : Nat) (by decide) (by decide)⟩

-- ---------------------------------------------------------------------------
-- Claims about the idle-reminder handler
-- ---------------------------------------------------------------------------

/-- While the guard flag is set, no event other than "speaking" produces a
command or clears the flag, so a sequence free of "speaking" yields an empty
trace. -/
lemma run_trace_of_sent (evs : List String) (h : "speaking" ∉ evs) :
    run_trace true evs = [] := by
  induction evs with
  | nil => rfl
  | cons e rest ih =>
      have he : e ≠ "speaking" := by
        intro hh
        exact h (hh ▸ List.mem_cons_self e rest)
      have hr : "speaking" ∉ rest := fun hh => h (List.mem_cons_of_mem e hh)
      simp [run_trace, on_user_state_changed, he, ih hr]

/-- C3: per contiguous away window, at most one reminder is spoken; starting
with the guard clear, an "away" event followed by any events among which the
user never starts speaking produces exactly the single reminder command, and
a further "away" event with the guard set produces no command at all. -/
theorem reminder_once_per_away_window (evs : List String)
    (h : "speaking" ∉ evs) :
    run_trace false ("away" :: evs) =
      [Command.speak SILENCE_REMINDER_TEXT true] ∧
    on_user_state_changed true "away" = (true, []) := by
  constructor
  · simp [run_trace, on_user_state_changed, run_trace_of_sent evs h]
  · simp [on_user_state_changed]

/-- Witness for reminder_once_per_away_window on a concrete window with
repeated away events. -/
theorem reminder_once_per_away_window_witness :
    "speaking" ∉ ["away", "listening", "away"] ∧
    run_trace false ("away" :: ["away", "listening", "away"]) =
      [Command.speak SILENCE_REMINDER_TEXT true] :=
  ⟨by decide,
   (reminder_once_per_away_window ["away", "listening", "away"] (by decide)).1⟩

/-- C4: the reminder re-arms after user speech; whatever the guard flag holds,
once the user speaks and the next away window begins, exactly one more
reminder is issued (and none after it while the user stays silent). -/
theorem reminder_rearms (b : Bool) (evs : List String)
    (h : "speaking" ∉ evs) :
    run_trace b ("speaking" :: "away" :: evs) =
      [Command.speak SILENCE_REMINDER_TEXT true] := by
  simp [run_trace, on_user_state_changed, run_trace_of_sent evs h]

/-- Witness for reminder_rearms: after a fired reminder (guard set) and user
speech, the next away window produces exactly one reminder. -/
theorem reminder_rearms_witness :
    "speaking" ∉ ["away", "away"] ∧
    run_trace true ("speaking" :: "away" :: ["away", "away"]) =
      [Command.speak SILENCE_REMINDER_TEXT true] :=
  ⟨by decide, reminder_rearms true ["away", "away"] (by decide)⟩

/-- C9: a user-state-changed event whose new state is neither "away" nor
"speaking" leaves the guard flag unchanged and issues no command. -/
theorem other_state_no_effect (b : Bool) (s : String)
    (h1 : s ≠ "away") (h2 : s ≠ "speaking") :
    on_user_state_changed b s = (b, []) := by
  simp [on_user_state_changed, h1, h2]

/-- Witness for other_state_no_effect at the "listening" state with the guard
set: the flag stays set, so leaving away without speaking does not re-arm the
reminder. -/
theorem other_state_no_effect_witness :
    ("listening" : String) ≠ "away" ∧ ("listening" : String) ≠ "speaking" ∧
    on_user_state_changed true "listening" = (true, []) :=
  ⟨by decide, by decide,
   other_state_no_effect true "listening" (by decide) (by decide)⟩

-- ---------------------------------------------------------------------------
-- Claims about the session configuration
-- ---------------------------------------------------------------------------

/-- C7: the configured defaults match the spec; the value passed as
user_away_timeout equals 20.0 and the value passed as
min_interruption_duration lies in the interval from 0.3 to 0.5. -/
theorem session_threshold_values :
    entrypoint_session_args.user_away_timeout = 20 ∧
    3 / 10 ≤ entrypoint_session_args.min_interruption_duration ∧
    entrypoint_session_args.min_interruption_duration ≤ 1 / 2 := by
  refine ⟨rfl, ?_, ?_⟩ <;>
    norm_num [entrypoint_session_args]

-- ---------------------------------------------------------------------------
-- Claims about the controller model
-- ---------------------------------------------------------------------------

/-- C5: while the agent is speaking, once continuous user speech has lasted at
least the configured minimum interruption duration, the very next controller
step issues exactly one CancelSpeech, ahead of any further Speak it may also
issue, and moves the agent to idle. -/
theorem interruption_cancels (cfg : CtrlConfig) (st : CtrlState) (t t0 : ℤ)
    (hs : st.agentState = AgState.speaking)
    (hc : st.userSpeechStart = some t0)
    (hd : cfg.interruptionMinDuration ≤ t - t0) :
    (ctrl_step cfg st (CtrlEvent.tick t)).1.agentState = AgState.idle ∧
    ((ctrl_step cfg st (CtrlEvent.tick t)).2).head? = some Command.cancelSpeech ∧
    ((ctrl_step cfg st (CtrlEvent.tick t)).2).count Command.cancelSpeech = 1 := by
  simp only [ctrl_step, hc]
  have hcond : st.agentState = AgState.speaking ∧
      cfg.interruptionMinDuration ≤ t - t0 := ⟨hs, hd⟩
  rw [if_pos hcond]
  split_ifs with hrem
  · refine ⟨rfl, rfl, ?_⟩
    simp [List.count_cons]
  · refine ⟨rfl, rfl, ?_⟩
    simp

/-- Witness for interruption_cancels at the source configuration: user speech
from time 260 is still running at time 266, six tenths of a second later,
which meets the 0.3 second minimum of three deciseconds. -/
theorem interruption_cancels_witness :
    sourceConfig.interruptionMinDuration ≤ (266 : ℤ) - 260 ∧
    (ctrl_step sourceConfig
        { agentState := AgState.speaking, idleState := IdleSt.awayReminded,
          lastSpeechAt := 250, userSpeechStart := some 260 }
        (CtrlEvent.tick 266)).1.agentState = AgState.idle :=
  ⟨by decide,
   (interruption_cancels sourceConfig
     { agentState := AgState.speaking, idleState := IdleSt.awayReminded,
       lastSpeechAt := 250, userSpeechStart := some 260 }
     266 260 rfl rfl (by decide)).1⟩

/-- C6: the end-to-end scenario of section 8.7 produces exactly the command
trace reminder, echo of hello, cancel, reminder, in that order. -/
theorem scenario_trace :
    ctrl_run sourceConfig initCtrlState scenarioEvents =
      [Command.speak SILENCE_REMINDER_TEXT true,
       Command.speak "You said: hello" true,
       Command.cancelSpeech,
       Command.speak SILENCE_REMINDER_TEXT true] := by
  decide
